import Mathlib

/-!
Verification of the Circuit Context Composer and content-ingestion pipeline
of the Wisdom-Circuits tutoring platform.

The definitions below are a shallow embedding of the TypeScript source:
  - the `circuit_content` and `wisdom_circuits` rows (shared schema),
  - `DatabaseStorage.getCircuitContent` / `createCircuitContent` /
    `archiveCircuitContent` (storage layer; the select carries no order-by
    clause, so SQL fixes only the multiset of returned rows: the table is
    a list and the select a filter over it for membership and count facts,
    and `admissibleSelectResult` captures the DBMS's freedom to return the
    matching rows in any order),
  - `OpenAIService.generateSystemPrompt` / `processChatMessage`,
  - the chat route `POST /api/circuit/:circuitId/chat`,
  - the ingestion routes `POST /api/transcribe` and
    `POST /api/circuit-content/:circuitId`.

JavaScript value semantics that matter here are made explicit: nullable
text columns are `Option String`, the `||` fallback operator tests JS
truthiness (both `null` and the empty string are falsy), and template
interpolation of `null` prints the four-letter word null.
-/

namespace WisdomCircuits

/-- One row of the `circuit_content` table (shared schema).  `description`
and `content` are nullable text columns, hence `Option String`. -/
structure CircuitContent where
  id : Nat
  circuitId : Nat
  title : String
  description : Option String
  fileType : String
  contentUrl : String
  category : String
  content : Option String
  uploadedAt : Nat
  isArchived : Bool
deriving DecidableEq, Repr

/-- One row of the `wisdom_circuits` table, restricted to the fields the
composer pipeline reads. -/
structure WisdomCircuit where
  id : Nat
  code : String
  name : String
  grade : String
  teacherId : Nat
  teacherName : String
  description : String
  teachingStyles : List String
  homeworkPolicies : List String
  responseTypes : List String
  stateAlignment : String
  isArchived : Bool
deriving DecidableEq, Repr

/-- The `circuit_content` table: rows in insertion order plus the next
serial id.  The drizzle select in `getCircuitContent` has no order-by, so
SQL guarantees only which rows come back, not their order; the list form
here serves membership and count facts, and `admissibleSelectResult`
expresses the order freedom. -/
structure Store where
  rows : List CircuitContent
  nextId : Nat
deriving DecidableEq, Repr

/-- Payload accepted by `createCircuitContent` (the parsed
`insertCircuitContentSchema` value).  The zod schema omits `isArchived`,
but we keep a caller-supplied `isArchived` field to show that even a
caller that smuggles one in cannot influence the stored row: the storage
method overrides it. -/
structure InsertCircuitContent where
  circuitId : Nat
  title : String
  description : Option String
  fileType : String
  contentUrl : String
  category : String
  content : Option String
  isArchived : Bool
deriving DecidableEq, Repr

/-- `DatabaseStorage.getCircuitContent`: select rows of the circuit with
`is_archived = false`.  The query has no order-by clause, so only the
multiset of rows is determined by the program. -/
def getCircuitContent (s : Store) (circuitId : Nat) : List CircuitContent :=
  s.rows.filter (fun c => c.circuitId == circuitId && c.isArchived == false)

/-- `DatabaseStorage.createCircuitContent`: insert `{...content,
isArchived: false}` — the spread comes first, so the explicit
`isArchived: false` wins over anything the caller supplied; `uploadedAt`
is the database default `now()`, passed here as an explicit clock value. -/
def createCircuitContent (s : Store) (ins : InsertCircuitContent) (now : Nat) :
    CircuitContent × Store :=
  let row : CircuitContent :=
    { id := s.nextId
      circuitId := ins.circuitId
      title := ins.title
      description := ins.description
      fileType := ins.fileType
      contentUrl := ins.contentUrl
      category := ins.category
      content := ins.content
      uploadedAt := now
      isArchived := false }
  (row, { rows := s.rows ++ [row], nextId := s.nextId + 1 })

/-- `DatabaseStorage.archiveCircuitContent`: update the row with the given
id, setting `is_archived = true`.  The row is updated in place, never
removed. -/
def archiveCircuitContent (s : Store) (i : Nat) : Store :=
  { s with rows := s.rows.map (fun c => if c.id = i then { c with isArchived := true } else c) }

/-! ### JavaScript value semantics -/

/-- JS truthiness of a nullable string: `null` and `""` are falsy. -/
def jsTruthy : Option String → Bool
  | none => false
  | some s => s != ""

/-- The JS `a || b` fallback on nullable strings. -/
def jsOr (a b : Option String) : Option String :=
  if jsTruthy a then a else b

/-- The JS `a || b` fallback on plain strings (empty string is falsy). -/
def jsOrS (a b : String) : String :=
  if a = "" then b else a

/-- Template-literal interpolation of a nullable string: `null` prints as
the word null. -/
def interp : Option String → String
  | none => "null"
  | some s => s

/-! ### Configuration Mapper (`OpenAIService.generateSystemPrompt`) -/

/-- The teaching-style switch: one clause per known tag, `""` for the
default branch. -/
def teachingStyleClause (style : String) : String :=
  if style = "authority" then "direct and structured instruction"
  else if style = "demonstrator" then "demonstration and guided practice"
  else if style = "facilitator" then "guided inquiry and discussion"
  else if style = "delegator" then "independent learning and group work"
  else if style = "hybrid" then "flexible combination of teaching methods"
  else ""

/-- The homework-policy switch. -/
def homeworkPolicyClause (policy : String) : String :=
  if policy = "guide" then "provide guidance without direct solutions"
  else if policy = "verify" then "verify and confirm answer correctness"
  else if policy = "examples" then "offer relevant examples"
  else if policy = "no_solutions" then "encourage independent problem-solving"
  else ""

/-- The response-type switch. -/
def responseTypeClause (ty : String) : String :=
  if ty = "detailed" then "provide comprehensive explanations"
  else if ty = "concise" then "give brief, focused answers"
  else if ty = "step_by_step" then "break down concepts into clear steps"
  else if ty = "conceptual" then "emphasize underlying principles"
  else ""

/-- `map(switch).filter(Boolean).join(', ')` for teaching styles. -/
def teachingStyleDesc (styles : List String) : String :=
  String.intercalate ", " ((styles.map teachingStyleClause).filter (fun s => s != ""))

/-- `map(switch).filter(Boolean).join(', ')` for homework policies. -/
def homeworkApproach (policies : List String) : String :=
  String.intercalate ", " ((policies.map homeworkPolicyClause).filter (fun s => s != ""))

/-- `map(switch).filter(Boolean).join(', ')` for response types. -/
def responseStyle (types : List String) : String :=
  String.intercalate ", " ((types.map responseTypeClause).filter (fun s => s != ""))

/-! ### Context Composer (`OpenAIService.generateSystemPrompt`) -/

/-- The `CircuitContext` interface: `uploadedContent` is optional
(`string[] | undefined`), hence `Option (List String)`. -/
structure CircuitContext where
  circuit : WisdomCircuit
  teachingStyles : List String
  homeworkPolicies : List String
  responseTypes : List String
  stateAlignment : String
  uploadedContent : Option (List String)
deriving DecidableEq, Repr

/-- The knowledge-base section of the prompt:
`context.uploadedContent ? context.uploadedContent.join(chr 10) : placeholder`.
An empty array is truthy in JS, so only an absent (`undefined`) field
selects the placeholder branch; an empty list joins to the empty string. -/
def knowledgeBaseText : Option (List String) → String
  | some xs => String.intercalate "\n" xs
  | none => "No specific content uploaded yet."

/-- `OpenAIService.generateSystemPrompt`, assembled exactly as the
template literal in the source. -/
def generateSystemPrompt (ctx : CircuitContext) : String :=
  let gradeLevel := if ctx.circuit.grade = "K" then "Kindergarten" else "Grade " ++ ctx.circuit.grade
  let tsd := teachingStyleDesc ctx.teachingStyles
  let ha := homeworkApproach ctx.homeworkPolicies
  let rs := responseStyle ctx.responseTypes
  "You are an educational AI assistant for " ++ gradeLevel ++ " students, specializing in "
    ++ ctx.circuit.name ++ ".\n"
    ++ "Teaching Approach: Utilize " ++ tsd ++ ".\n"
    ++ "Homework Guidance: " ++ ha ++ ".\n"
    ++ "Communication Style: " ++ rs ++ ".\n"
    ++ "State Alignment: Follow " ++ ctx.stateAlignment ++ " educational standards.\n\n"
    ++ "Key Guidelines:\n"
    ++ "1. Always communicate at a " ++ gradeLevel ++ " comprehension level\n"
    ++ "2. Use age-appropriate examples and analogies\n"
    ++ "3. Maintain a supportive and encouraging tone\n"
    ++ "4. Follow the specified teaching styles and response formats\n"
    ++ "5. Reference relevant uploaded content when applicable\n\n"
    ++ "Knowledge Base:\n" ++ knowledgeBaseText ctx.uploadedContent ++ "\n\n"
    ++ "Remember to:\n"
    ++ "- Keep explanations appropriate for " ++ gradeLevel ++ " students\n"
    ++ "- Use the teaching styles specified: " ++ tsd ++ "\n"
    ++ "- Follow the homework policy: " ++ ha ++ "\n"
    ++ "- Maintain the response style: " ++ rs

/-! ### Chat route (`POST /api/circuit/:circuitId/chat`) -/

/-- One excerpt of the processed content list, from the chat route:
the template literal title, colon, newline, then `c.content || c.description`. -/
def renderExcerpt (c : CircuitContent) : String :=
  c.title ++ ":\n" ++ interp (jsOr c.content c.description)

/-- The context object the chat route builds: settings come from the
circuit row (with the JS `|| []` and `|| "General"` fallbacks), and
`uploadedContent` is always supplied (possibly as an empty array). -/
def chatContext (circuit : WisdomCircuit) (items : List CircuitContent) : CircuitContext :=
  { circuit := circuit
    teachingStyles := circuit.teachingStyles
    homeworkPolicies := circuit.homeworkPolicies
    responseTypes := circuit.responseTypes
    stateAlignment := jsOrS circuit.stateAlignment "General"
    uploadedContent := some (items.map renderExcerpt) }

/-- The system prompt the chat route hands to the model boundary, as a
function of the circuit row and the content table. -/
def chatPrompt (circuit : WisdomCircuit) (s : Store) : String :=
  generateSystemPrompt (chatContext circuit (getCircuitContent s circuit.id))

/-! ### Model boundary (`OpenAIService.processChatMessage`) -/

/-- Outcome of the `openai.chat.completions.create` call as the service
observes it: either a reply whose `choices[0].message.content` may be
`null` or empty, or a thrown error. -/
inductive ChatOutcome where
  | reply (content : Option String)
  | failure
deriving DecidableEq, Repr

/-- The fixed apology returned when the model reply has no content. -/
def apologyMessage : String :=
  "I apologize, but I couldn\x27t generate a response. Please try rephrasing your question."

/-- `OpenAIService.processChatMessage` after the boundary call:
`content || apology` on success, a rethrown wrapped error on failure. -/
def processChatMessage (outcome : ChatOutcome) : Except String String :=
  match outcome with
  | .reply c => .ok (interp (jsOr c (some apologyMessage)))
  | .failure => .error "Failed to process your message. Please try again later."

/-! ### Ingestion routes (`POST /api/transcribe`,
`POST /api/circuit-content/:circuitId`) -/

/-- A failure thrown by the speech-to-text boundary as the transcribe
route's catch block classifies it: an API error object carrying an HTTP
status, or any other thrown error. -/
inductive UpstreamFailure where
  | apiError (status : Nat) (message : String)
  | other (message : String)
deriving DecidableEq, Repr

/-- The JSON response a route sends. -/
inductive ApiResponse where
  | success (body : CircuitContent)
  | failure (status : Nat) (message : String)
deriving DecidableEq, Repr

/-- Whether a route response is the success branch (`res.json(content)`). -/
def ApiResponse.isSuccess : ApiResponse → Bool
  | .success _ => true
  | .failure _ _ => false

/-- `POST /api/transcribe` from the point the Whisper call runs: on
success the transcript row is validated (its literal title and category
always pass the zod schema) and persisted; on any thrown failure the
catch block maps the error to a 500 response and nothing is persisted. -/
def transcribeRoute (s : Store) (circuitId : Nat)
    (result : Except UpstreamFailure String) (dateStr : String) (now : Nat) :
    Store × ApiResponse :=
  match result with
  | .ok text =>
      let ins : InsertCircuitContent :=
        { circuitId := circuitId
          title := "Class Recording Transcript - " ++ dateStr
          description := some "Automatically generated transcript from class recording"
          contentUrl := ""
          fileType := "txt"
          category := "transcript"
          content := some text
          isArchived := false }
      let created := createCircuitContent s ins now
      (created.2, .success created.1)
  | .error (.apiError status message) =>
      if status = 401 then
        (s, .failure 500 "Authentication error with transcription service. Please check API key.")
      else
        (s, .failure 500 ("OpenAI API error: " ++ jsOrS message "Unknown error"))
  | .error (.other _) =>
      (s, .failure 500 "Failed to process audio recording. Please try again.")

/-- Outcome of the `fetch` to the extraction boundary: an OK response
carrying text, a non-2xx status, or a thrown network error. -/
inductive FetchResult where
  | ok (text : String)
  | notOk (status : Nat)
  | netError (message : String)
deriving DecidableEq, Repr

/-- The extension switch of the upload route, mapping a lower-cased file
extension to the stored `fileType` (or rejection). -/
def extToFileType (ext : String) : Option String :=
  if ext = ".pdf" then some "pdf"
  else if ext = ".doc" || ext = ".docx" then some "docx"
  else if ext = ".txt" then some "txt"
  else if ext = ".ppt" || ext = ".pptx" then some "pptx"
  else none

/-- The `category` enum of `insertCircuitContentSchema`. -/
def validCategory (c : String) : Bool :=
  c = "syllabus" || c = "worksheet" || c = "pacing_guide" || c = "lesson_plan"
    || c = "reference_material" || c = "transcript"

/-- `POST /api/circuit-content/:circuitId`: dispatch on the extension;
`.txt` is read verbatim, `.pdf` goes through the extraction boundary and
any non-OK status or thrown error leaves the content empty, other
accepted kinds store no content.  The zod parse then demands a non-empty
effective title and a category from the enum (the route-computed
`fileType` is always in the enum); on success the row is persisted and
returned. -/
def uploadRoute (s : Store) (circuitId : Nat) (ext origName filename : String)
    (txtContents : String) (pdfFetch : FetchResult)
    (title description category : String) (now : Nat) : Store × ApiResponse :=
  match extToFileType ext with
  | none => (s, .failure 400 "Unsupported file type")
  | some fileType =>
      let content :=
        if fileType = "txt" then txtContents
        else if fileType = "pdf" then
          match pdfFetch with
          | .ok text => text
          | .notOk _ => ""
          | .netError _ => ""
        else ""
      let effTitle := jsOrS title origName
      let effCategory := jsOrS category "reference_material"
      if effTitle = "" || !validCategory effCategory then
        (s, .failure 400 "Invalid content data")
      else
        let ins : InsertCircuitContent :=
          { circuitId := circuitId
            title := effTitle
            description := some (jsOrS description "")
            contentUrl := "/uploads/" ++ filename
            fileType := fileType
            category := effCategory
            content := some (jsOrS content "")
            isArchived := false }
        let created := createCircuitContent s ins now
        (created.2, .success created.1)

/-! ### Concrete fixtures used by witnesses and counterexamples -/

/-- A concrete circuit row (Scenario A of the spec). -/
def demoCircuit : WisdomCircuit :=
  { id := 7, code := "ABCD1234", name := "Algebra", grade := "K", teacherId := 3,
    teacherName := "T", description := "d", teachingStyles := ["hybrid"],
    homeworkPolicies := ["guide"], responseTypes := ["detailed"],
    stateAlignment := "California", isArchived := false }

/-- An empty content table. -/
def emptyStore : Store := { rows := [], nextId := 1 }

/-- A content row uploaded at time 10. -/
def demoItem1 : CircuitContent :=
  { id := 1, circuitId := 7, title := "Syllabus", description := some "Course syllabus",
    fileType := "pdf", contentUrl := "/uploads/a.pdf", category := "syllabus",
    content := some "Week one: fractions", uploadedAt := 10, isArchived := false }

/-- A content row uploaded at time 20. -/
def demoItem2 : CircuitContent :=
  { id := 2, circuitId := 7, title := "Worksheet", description := some "",
    fileType := "txt", contentUrl := "/uploads/b.txt", category := "worksheet",
    content := some "Problems 1-10", uploadedAt := 20, isArchived := false }

/-- A content row uploaded at time 30. -/
def demoItem3 : CircuitContent :=
  { id := 3, circuitId := 7, title := "Notes", description := some "",
    fileType := "txt", contentUrl := "/uploads/c.txt", category := "reference_material",
    content := some "Note text", uploadedAt := 30, isArchived := false }

/-- A content table holding the three demo rows in upload order. -/
def demoStore : Store := { rows := [demoItem1, demoItem2, demoItem3], nextId := 4 }

/-- A content table whose only row for circuit 7 is archived. -/
def archivedOnlyStore : Store :=
  { rows := [{ demoItem1 with isArchived := true }], nextId := 2 }

/-! ### Shared lemmas -/

/-- The `map(switch).filter(Boolean)` pipeline is the `filterMap` that
keeps, in input order, the clauses of the tags the switch knows. -/
theorem map_filter_eq_filterMap (f : String → String) (l : List String) :
    (l.map f).filter (fun s => s != "") =
      l.filterMap (fun t => if f t = "" then none else some (f t)) := by
  induction l with
  | nil => rfl
  | cons a l ih =>
    by_cases h : f a = "" <;>
      simp [List.filter_cons, List.filterMap_cons, h, ih]

/-! ### Claim theorems -/

set_option maxRecDepth 8000 in
/-- C1 (code bug evidence): composing for a circuit with an empty active
content set yields an empty knowledge-base section, not the placeholder.
The chat route always passes `uploadedContent` as an array, the empty
array is truthy in JS, and an empty join is the empty string, so the
placeholder branch is unreachable from the route. -/
theorem empty_content_gives_empty_knowledge_base :
    knowledgeBaseText (chatContext demoCircuit (getCircuitContent emptyStore demoCircuit.id)).uploadedContent = ""
    ∧ ¬ knowledgeBaseText (chatContext demoCircuit (getCircuitContent emptyStore demoCircuit.id)).uploadedContent
        = "No specific content uploaded yet."
    ∧ chatPrompt demoCircuit emptyStore =
      "You are an educational AI assistant for Kindergarten students, specializing in Algebra.\nTeaching Approach: Utilize flexible combination of teaching methods.\nHomework Guidance: provide guidance without direct solutions.\nCommunication Style: provide comprehensive explanations.\nState Alignment: Follow California educational standards.\n\nKey Guidelines:\n1. Always communicate at a Kindergarten comprehension level\n2. Use age-appropriate examples and analogies\n3. Maintain a supportive and encouraging tone\n4. Follow the specified teaching styles and response formats\n5. Reference relevant uploaded content when applicable\n\nKnowledge Base:\n\n\nRemember to:\n- Keep explanations appropriate for Kindergarten students\n- Use the teaching styles specified: flexible combination of teaching methods\n- Follow the homework policy: provide guidance without direct solutions\n- Maintain the response style: provide comprehensive explanations" := by
  refine ⟨rfl, by decide, rfl⟩

/-- C2 (counterexample): the two presentations of the same two-element
teaching-style set produce different sentences, so the mapper is not
order-invariant and the clause order is the input order, not a canonical
tag order. -/
theorem mapper_output_depends_on_input_order :
    List.Perm ["authority", "demonstrator"] ["demonstrator", "authority"]
    ∧ teachingStyleDesc ["authority", "demonstrator"]
        ≠ teachingStyleDesc ["demonstrator", "authority"] :=
  ⟨List.Perm.swap "demonstrator" "authority" [], by decide⟩

/-- C2 (amended): each settings mapper is a pure function of the input
list, and its comma-joined clauses are exactly the clauses of the known
tags in input-list order (unknown tags silently dropped). -/
theorem mapper_clauses_follow_input_order (ts hp rt : List String) :
    teachingStyleDesc ts = String.intercalate ", "
        (ts.filterMap (fun t => if teachingStyleClause t = "" then none
          else some (teachingStyleClause t)))
    ∧ homeworkApproach hp = String.intercalate ", "
        (hp.filterMap (fun t => if homeworkPolicyClause t = "" then none
          else some (homeworkPolicyClause t)))
    ∧ responseStyle rt = String.intercalate ", "
        (rt.filterMap (fun t => if responseTypeClause t = "" then none
          else some (responseTypeClause t))) := by
  refine ⟨?_, ?_, ?_⟩ <;>
    simp [teachingStyleDesc, homeworkApproach, responseStyle, map_filter_eq_filterMap]

/-- Ascending upload-time order on content rows. -/
def uploadLE (a b : CircuitContent) : Prop := a.uploadedAt ≤ b.uploadedAt

instance (a b : CircuitContent) : Decidable (uploadLE a b) := Nat.decLe _ _

/-- SQL result semantics for the order-by-less select in
`getCircuitContent`: the standard fixes the multiset of rows a select
returns but not their order, so a conforming DBMS may hand back the
matching rows in any order — every permutation of the matching multiset
is an admissible result list. -/
def admissibleSelectResult (s : Store) (cid : Nat) (l : List CircuitContent) : Prop :=
  List.Perm l (getCircuitContent s cid)

/-- C3 (code bug evidence): the select behind the composer's content
aggregation carries no order-by clause, so SQL semantics admit a
non-ascending result for a circuit with two or more active items: at the
concrete three-row table the reversed-head order is an admissible select
result and is not in ascending upload-time order, while the claimed
order is the one the spec's Content Store contract demands. -/
theorem order_by_less_select_admits_non_ascending_result :
    admissibleSelectResult demoStore 7 [demoItem2, demoItem1, demoItem3]
    ∧ ¬ List.Pairwise uploadLE [demoItem2, demoItem1, demoItem3]
    ∧ List.Pairwise uploadLE [demoItem1, demoItem2, demoItem3] := by
  refine ⟨List.Perm.swap demoItem1 demoItem2 [demoItem3], by decide, by decide⟩

/-- C4: after `archiveCircuitContent i`, the very next active selection
contains no row with id `i`; no row is deleted (the table keeps its
length, and the row itself survives with its flag set). -/
theorem archived_item_excluded_but_not_deleted (s : Store) (i cid : Nat) :
    (∀ c ∈ getCircuitContent (archiveCircuitContent s i) cid, c.id ≠ i)
    ∧ (archiveCircuitContent s i).rows.length = s.rows.length
    ∧ ∀ c ∈ s.rows, c.id = i →
        { c with isArchived := true } ∈ (archiveCircuitContent s i).rows := by
  refine ⟨?_, by simp [archiveCircuitContent], ?_⟩
  · intro c hc
    obtain ⟨hmap, hpred⟩ := List.mem_filter.mp hc
    obtain ⟨a, ha, hfa⟩ := List.mem_map.mp hmap
    simp only [Bool.and_eq_true, beq_iff_eq] at hpred
    by_cases h : a.id = i
    · rw [if_pos h] at hfa
      rw [← hfa] at hpred
      simp at hpred
    · rw [if_neg h] at hfa
      rw [← hfa]
      exact h
  · intro c hc hci
    refine List.mem_map.mpr ⟨c, hc, ?_⟩
    rw [if_pos hci]

/-- C4 witness: archiving demo row 1 keeps the table length and keeps the
archived version of the row in the table. -/
theorem archived_item_excluded_but_not_deleted_witness :
    ({ demoItem1 with isArchived := true } ∈ (archiveCircuitContent demoStore 1).rows)
    ∧ (archiveCircuitContent demoStore 1).rows.length = demoStore.rows.length :=
  ⟨(archived_item_excluded_but_not_deleted demoStore 1 7).2.2 demoItem1 (by decide) rfl,
   (archived_item_excluded_but_not_deleted demoStore 1 7).2.1⟩

/-- C5: composition is a pure function of the circuit's settings (name,
grade, the three tag lists, state alignment) and the active content
selection: two runs agreeing on those produce byte-identical prompts. -/
theorem composition_pure_in_settings_and_content
    (c₁ c₂ : WisdomCircuit) (s₁ s₂ : Store)
    (hname : c₁.name = c₂.name) (hgrade : c₁.grade = c₂.grade)
    (hts : c₁.teachingStyles = c₂.teachingStyles)
    (hhp : c₁.homeworkPolicies = c₂.homeworkPolicies)
    (hrt : c₁.responseTypes = c₂.responseTypes)
    (hsa : c₁.stateAlignment = c₂.stateAlignment)
    (hactive : getCircuitContent s₁ c₁.id = getCircuitContent s₂ c₂.id) :
    chatPrompt c₁ s₁ = chatPrompt c₂ s₂ := by
  simp only [chatPrompt, chatContext, generateSystemPrompt,
    hname, hgrade, hts, hhp, hrt, hsa, hactive]

/-- C5 witness: the prompt for the demo circuit over the empty table and
over a table whose only row is archived coincide byte for byte. -/
theorem composition_pure_in_settings_and_content_witness :
    chatPrompt demoCircuit emptyStore = chatPrompt demoCircuit archivedOnlyStore :=
  composition_pure_in_settings_and_content demoCircuit demoCircuit emptyStore
    archivedOnlyStore rfl rfl rfl rfl rfl rfl (by decide)

/-- A content row whose extracted content and description are both empty
strings. -/
def itemBothEmpty : CircuitContent :=
  { id := 9, circuitId := 7, title := "Empty", description := some "",
    fileType := "txt", contentUrl := "", category := "worksheet",
    content := some "", uploadedAt := 40, isArchived := false }

/-- C6: an excerpt is the title, a colon and a newline, then the
extracted content; the description when the content is empty or null;
and nothing when both are empty strings — the item still contributes its
labelled block. -/
theorem excerpt_is_title_content_or_description (c : CircuitContent) :
    (∀ t, c.content = some t → t ≠ "" → renderExcerpt c = c.title ++ ":\n" ++ t)
    ∧ (∀ d, (c.content = none ∨ c.content = some "") → c.description = some d →
        renderExcerpt c = c.title ++ ":\n" ++ d)
    ∧ ((c.content = none ∨ c.content = some "") → c.description = some "" →
        renderExcerpt c = c.title ++ ":\n") := by
  refine ⟨?_, ?_, ?_⟩
  · intro t ht hne
    simp [renderExcerpt, jsOr, jsTruthy, interp, ht, hne]
  · intro d hc hd
    rcases hc with h | h <;> simp [renderExcerpt, jsOr, jsTruthy, interp, h, hd]
  · intro hc hd
    rcases hc with h | h <;> simp [renderExcerpt, jsOr, jsTruthy, interp, h, hd]

/-- C6 witness: a nonempty-content item renders title plus content; an
item with empty content and empty description still renders its labelled
block with nothing after it. -/
theorem excerpt_is_title_content_or_description_witness :
    renderExcerpt itemBothEmpty = "Empty:\n"
    ∧ renderExcerpt demoItem1 = "Syllabus:\nWeek one: fractions" :=
  ⟨(excerpt_is_title_content_or_description itemBothEmpty).2.2 (Or.inr rfl) rfl,
   (excerpt_is_title_content_or_description demoItem1).1 "Week one: fractions" rfl (by decide)⟩

/-- C7: when the speech-to-text call throws, the transcribe route leaves
the content table untouched and answers with an error response. -/
theorem failed_transcription_persists_nothing (s : Store) (cid : Nat)
    (e : UpstreamFailure) (dateStr : String) (now : Nat) :
    (transcribeRoute s cid (Except.error e) dateStr now).1 = s
    ∧ (transcribeRoute s cid (Except.error e) dateStr now).2.isSuccess = false := by
  cases e with
  | apiError status message =>
      by_cases h : status = 401 <;> simp [transcribeRoute, h, ApiResponse.isSuccess]
  | other message => exact ⟨rfl, rfl⟩

/-- C8: a PDF upload whose extraction call returns a non-success status
still succeeds: a row is appended with empty extracted content and the
caller receives the success response carrying that row. -/
theorem pdf_extraction_failure_still_succeeds (s : Store) (cid status : Nat)
    (origName filename txtContents title description category : String) (now : Nat)
    (htitle : jsOrS title origName ≠ "")
    (hcat : validCategory (jsOrS category "reference_material") = true) :
    ∃ saved : CircuitContent,
      uploadRoute s cid ".pdf" origName filename txtContents (FetchResult.notOk status)
          title description category now
        = ({ rows := s.rows ++ [saved], nextId := s.nextId + 1 }, ApiResponse.success saved)
      ∧ saved.content = some "" := by
  have hcond : (decide (jsOrS title origName = "")
      || !validCategory (jsOrS category "reference_material")) = false := by
    simp [htitle, hcat]
  refine ⟨⟨s.nextId, cid, jsOrS title origName, some (jsOrS description ""), "pdf",
    "/uploads/" ++ filename, jsOrS category "reference_material", some "", now, false⟩,
    ?_, rfl⟩
  simp [uploadRoute, extToFileType, hcond, createCircuitContent, jsOrS]
  exact ⟨by simpa [jsOrS] using htitle, by simpa [jsOrS] using hcat⟩

/-- C8 witness: a concrete PDF upload against an HTTP 500 from the
extraction boundary appends one row with empty content and succeeds. -/
theorem pdf_extraction_failure_still_succeeds_witness :
    ∃ saved : CircuitContent,
      uploadRoute emptyStore 7 ".pdf" "notes.pdf" "file-1.pdf" "" (FetchResult.notOk 500)
          "" "" "" 5
        = ({ rows := emptyStore.rows ++ [saved], nextId := emptyStore.nextId + 1 },
            ApiResponse.success saved)
      ∧ saved.content = some "" :=
  pdf_extraction_failure_still_succeeds emptyStore 7 500 "notes.pdf" "file-1.pdf"
    "" "" "" "" 5 (by decide) (by decide)

/-- C9: every row created through `createCircuitContent` starts active —
whatever archived value the caller supplied is overridden — and is
therefore in the very next active selection for its circuit. -/
theorem created_content_starts_active (s : Store) (ins : InsertCircuitContent) (now : Nat) :
    (createCircuitContent s ins now).1.isArchived = false
    ∧ (createCircuitContent s ins now).1 ∈
        getCircuitContent (createCircuitContent s ins now).2 ins.circuitId := by
  refine ⟨rfl, ?_⟩
  simp [createCircuitContent, getCircuitContent, List.mem_filter]

/-- C10: a successful model reply with empty or missing message content
makes `processChatMessage` return the fixed nonempty apology as a
successful result. -/
theorem empty_model_reply_yields_apology (c : Option String)
    (h : c = none ∨ c = some "") :
    processChatMessage (ChatOutcome.reply c) = Except.ok apologyMessage
    ∧ apologyMessage ≠ "" := by
  rcases h with h | h <;> subst h <;> exact ⟨rfl, by decide⟩

/-- C10 witness: the empty-string reply yields the apology. -/
theorem empty_model_reply_yields_apology_witness :
    processChatMessage (ChatOutcome.reply (some "")) = Except.ok apologyMessage
    ∧ apologyMessage ≠ "" :=
  empty_model_reply_yields_apology (some "") (Or.inr rfl)

end WisdomCircuits
